import Mathlib

set_option linter.unusedVariables false

/-!
Verification development for the sound-changer audio device manager
(`src-tauri/src/audio_manager.rs`, `src-tauri/src/error.rs`,
`src-tauri/src/lib.rs`).

The Rust module is embedded shallowly:

* pure helpers (`parse_device_list_response`) become pure Lean functions
  over an explicit JSON value tree (the output of `serde_json::from_str`;
  the string-to-tree parse itself is the external serde library and is
  modelled as an already-parsed `Json` value or a parse-failure message);
* the retrying command executor (`execute_powershell_with_retry`) is a
  function of an oracle giving the outcome of each process-spawn attempt,
  returning the attempt count, the backoff sleeps performed, and the result;
* the stateful `AudioManager` methods become explicit state-passing
  functions over a `Sys` record holding the manager state
  (`AudioManagerState`), an abstract monotone-free clock stream for the
  `Instant::now()` readings that influence behaviour, an external-response
  stream for each PowerShell invocation, and a trace of the commands
  issued so far.  Each public method also receives the manager's
  `session_id`, which the source uses for log correlation only.

`Instant` values are modelled as natural numbers (milliseconds);
`Instant::duration_since` saturates at zero exactly as `Nat` subtraction
does.  Log statements (`info!`, `warn!`, ...) have no behavioural effect
and are dropped, including the `Instant::now()` readings that feed only
elapsed-time log lines.
-/

/-- Rust `DeviceType` (audio_manager.rs, lines 26-30). -/
inductive DeviceType where
  | Playback
  | Recording
deriving DecidableEq, Repr

/-- Rust `DeviceState` (audio_manager.rs, lines 32-39). -/
inductive DeviceState where
  | Active
  | Disabled
  | NotPresent
  | Unplugged
  | Unknown
deriving DecidableEq, Repr

/-- Rust `AudioDevice` (audio_manager.rs, lines 15-24); `last_seen` is an
ISO timestamp kept as an optional string. -/
structure AudioDevice where
  id : String
  name : String
  device_type : DeviceType
  state : DeviceState
  is_default : Bool
  is_communication_default : Bool
  last_seen : Option String
deriving DecidableEq, Repr

/-- Rust `AudioError` (error.rs, lines 4-23). -/
inductive AudioError where
  | DeviceNotFound (id : String)
  | PermissionDenied (detail : String)
  | CommandFailed (detail : String)
  | ParseError (detail : String)
  | WindowsApiError (detail : String)
  | Unknown (detail : String)
deriving DecidableEq, Repr

/-- JSON value tree, the shape of a `serde_json::Value`.  An object is an
association list of fields; a `serde_json` object is a map, so well-formed
values carry no duplicate keys and first-match lookup agrees with map
lookup. -/
inductive Json where
  | null
  | bool (b : Bool)
  | num (n : Int)
  | str (s : String)
  | arr (elems : List Json)
  | obj (fields : List (String × Json))

/-- Field lookup in an object's association list (first match). -/
def jsonLookup (key : String) : List (String × Json) → Option Json
  | [] => none
  | (k, v) :: rest => if k = key then some v else jsonLookup key rest

/-- Rust `value.get(key)`: `Some` field value on an object that has the
key, `None` otherwise. -/
def jsonGetOpt (j : Json) (key : String) : Option Json :=
  match j with
  | .obj fields => jsonLookup key fields
  | _ => none

/-- Rust `value[key]` indexing: the field value, or `Null` when the key is
missing or the value is not an object. -/
def jsonIndex (j : Json) (key : String) : Json :=
  match jsonGetOpt j key with
  | some v => v
  | none => .null

/-- Rust `Value::as_str`. -/
def jsonAsStr : Json → Option String
  | .str s => some s
  | _ => none

/-- Rust `Value::as_bool`. -/
def jsonAsBool : Json → Option Bool
  | .bool b => some b
  | _ => none

/-- Rust `Value::as_array`. -/
def jsonAsArr : Json → Option (List Json)
  | .arr elems => some elems
  | _ => none

/-- Body of the `for device in devices_array` loop of
`parse_device_list_response` (audio_manager.rs, lines 490-516): `some`
device for an element whose `device_type` is exactly `"Playback"` or
`"Recording"`, `none` for the `continue` branch. -/
def parseDeviceElement (device : Json) : Option AudioDevice :=
  match jsonAsStr (jsonIndex device "device_type") with
  | none => none
  | some ty =>
      if ty = "Playback" then some (parseFields device DeviceType.Playback)
      else if ty = "Recording" then some (parseFields device DeviceType.Recording)
      else none
where
  parseFields (device : Json) (device_type : DeviceType) : AudioDevice :=
    { id := (jsonAsStr (jsonIndex device "id")).getD ""
      name := (jsonAsStr (jsonIndex device "name")).getD ""
      device_type := device_type
      state :=
        match jsonAsStr (jsonIndex device "state") with
        | none => DeviceState.Unknown
        | some st =>
            if st = "Active" then DeviceState.Active
            else if st = "Disabled" then DeviceState.Disabled
            else if st = "NotPresent" then DeviceState.NotPresent
            else if st = "Unplugged" then DeviceState.Unplugged
            else DeviceState.Unknown
      is_default := (jsonAsBool (jsonIndex device "is_default")).getD false
      is_communication_default :=
        (jsonAsBool (jsonIndex device "is_communication_default")).getD false
      last_seen := jsonAsStr (jsonIndex device "last_seen") }

/-- Rust `parse_device_list_response` (audio_manager.rs, lines 476-519) on
the already-parsed JSON value of its input text. -/
def parse_device_list_response (response : Json) : Except AudioError (List AudioDevice) :=
  match jsonGetOpt response "error" with
  | some error =>
      .error (.CommandFailed ((jsonAsStr error).getD "Unknown error"))
  | none =>
      match jsonAsArr (jsonIndex response "devices") with
      | none => .error (.ParseError "Missing devices array")
      | some devices_array => .ok (devices_array.filterMap parseDeviceElement)

/-! ## Retrying command executor -/

/-- Rust `MAX_RETRY_ATTEMPTS` (audio_manager.rs, line 12). -/
def MAX_RETRY_ATTEMPTS : Nat := 3

/-- Rust `RETRY_BASE_DELAY` in milliseconds (audio_manager.rs, line 13). -/
def RETRY_BASE_DELAY : Nat := 500

/-- Outcome of one `Command::new("powershell")....output()` attempt:
a spawn-level I/O error, a completed process with non-success exit status
(carrying its stderr), or a successful process (carrying its stdout). -/
inductive CmdOutcome where
  | spawnError (msg : String)
  | exitFailure (stderr : String)
  | success (stdout : String)
deriving DecidableEq, Repr

/-- Whether an attempt outcome is the success case. -/
def CmdOutcome.isSuccess : CmdOutcome → Bool
  | .success _ => true
  | _ => false

/-- The `AudioError` recorded in `last_error` for a failed attempt:
`CommandFailed(stderr)` for an exit failure and, through
`From<std::io::Error>` (error.rs, lines 25-29), `CommandFailed(msg)` for a
spawn error. -/
def CmdOutcome.toError : CmdOutcome → AudioError
  | .exitFailure stderr => .CommandFailed stderr
  | .spawnError msg => .CommandFailed msg
  | .success _ => .CommandFailed "Unknown PowerShell error"

instance {ε α} [DecidableEq ε] [DecidableEq α] : DecidableEq (Except ε α) := fun a b =>
  match a, b with
  | .ok x, .ok y =>
      if h : x = y then .isTrue (by rw [h]) else .isFalse (by simp [h])
  | .error e, .error f =>
      if h : e = f then .isTrue (by rw [h]) else .isFalse (by simp [h])
  | .ok _, .error _ => .isFalse (by simp)
  | .error _, .ok _ => .isFalse (by simp)

/-- Observable behaviour of one `execute_powershell_with_retry` call:
how many attempts ran, the backoff sleeps (in milliseconds, in order)
performed between attempts, and the returned result. -/
structure RetryTrace where
  attempts : Nat
  sleeps : List Nat
  result : Except AudioError String
deriving DecidableEq, Repr

/-- The `for attempt in 1..=MAX_RETRY_ATTEMPTS` loop of
`execute_powershell_with_retry` (audio_manager.rs, lines 420-472), with
`remaining` the number of attempts still allowed (`remaining = 0` is loop
exit, returning `last_error.unwrap_or(CommandFailed("Unknown PowerShell
error"))`); `attempt < MAX_RETRY_ATTEMPTS` is `remaining ≠ 0` after the
current attempt is consumed, and the sleep of `RETRY_BASE_DELAY * attempt`
happens only then. -/
def retryFrom (oracle : Nat → CmdOutcome) :
    Nat → Nat → Option AudioError → RetryTrace
  | 0, attempt, lastError =>
      ⟨attempt - 1, [], .error (lastError.getD (.CommandFailed "Unknown PowerShell error"))⟩
  | remaining + 1, attempt, _ =>
      match oracle attempt with
      | .success stdout => ⟨attempt, [], .ok stdout⟩
      | .exitFailure stderr =>
          if remaining = 0 then
            ⟨attempt, [], .error (.CommandFailed stderr)⟩
          else
            let rest := retryFrom oracle remaining (attempt + 1)
              (some (.CommandFailed stderr))
            ⟨rest.attempts, RETRY_BASE_DELAY * attempt :: rest.sleeps, rest.result⟩
      | .spawnError msg =>
          if remaining = 0 then
            ⟨attempt, [], .error (.CommandFailed msg)⟩
          else
            let rest := retryFrom oracle remaining (attempt + 1)
              (some (.CommandFailed msg))
            ⟨rest.attempts, RETRY_BASE_DELAY * attempt :: rest.sleeps, rest.result⟩

/-- Rust `execute_powershell_with_retry` (audio_manager.rs, lines 413-473),
as a function of the per-attempt outcome oracle (attempts are numbered
from 1). -/
def execute_powershell_with_retry (oracle : Nat → CmdOutcome) : RetryTrace :=
  retryFrom oracle MAX_RETRY_ATTEMPTS 1 none

/-! ## The stateful manager -/

/-- The PowerShell commands the manager issues, abstracted by the script
each method formats. -/
inductive Cmd where
  | listDevices
  | setDefault (device_id : String)
  | checkModule
  | installModule
deriving DecidableEq, Repr

/-- Result of one `execute_powershell_with_retry` call as the callers
observe it: either the retry harness exhausted its attempts (an
`AudioError`, normally `CommandFailed`), or it returned stdout, whose
`serde_json::from_str` parse is a `Json` value or a serde error message
(`From<serde_json::Error>` turns the latter into `ParseError`). -/
inductive ExecResult where
  | err (e : AudioError)
  | ok (stdout : Except String Json)

/-- Rust `AudioManagerState` (audio_manager.rs, lines 41-48); the
`HashMap<String, AudioDevice>` is an association list keyed by device id,
`Instant` readings are naturals. -/
structure AudioManagerState where
  cached_devices : List (String × AudioDevice)
  last_refresh : Option Nat
  cache_ttl : Nat
  previous_default_playback : Option String
  previous_default_recording : Option String

/-- Rust `AudioManagerState::default` (audio_manager.rs, lines 50-60):
empty cache, no refresh stamp, 30-second TTL. -/
def AudioManagerState.default : AudioManagerState :=
  { cached_devices := []
    last_refresh := none
    cache_ttl := 30000
    previous_default_playback := none
    previous_default_recording := none }

/-- One `AudioManager` together with its environment: the manager state
behind the lock, the stream of `Instant::now()` readings that influence
behaviour (`clock i` is the value of the `i`-th reading), the stream of
external-call results (`exec i c` is the result of the `i`-th PowerShell
invocation, issued with command `c`), and the trace of commands issued so
far. -/
structure Sys where
  state : AudioManagerState
  clock : Nat → Nat
  clockIdx : Nat
  exec : Nat → Cmd → ExecResult
  execIdx : Nat
  trace : List Cmd

/-- The system after one `Instant::now()` reading. -/
def Sys.afterTick (s : Sys) : Sys :=
  { s with clockIdx := s.clockIdx + 1 }

/-- Consume one `Instant::now()` reading. -/
def Sys.tick (s : Sys) : Nat × Sys :=
  (s.clock s.clockIdx, s.afterTick)

/-- The system after one external PowerShell invocation of command `c`:
the next external result is consumed and `c` is appended to the trace. -/
def Sys.afterCmd (s : Sys) (c : Cmd) : Sys :=
  { s with execIdx := s.execIdx + 1, trace := s.trace ++ [c] }

/-- Issue one external PowerShell invocation: consume the next external
result and append the command to the trace. -/
def Sys.execCmd (s : Sys) (c : Cmd) : ExecResult × Sys :=
  (s.exec s.execIdx c, s.afterCmd c)

/-- Replace the state component. -/
def Sys.withState (s : Sys) (st : AudioManagerState) : Sys :=
  { s with state := st }

/-- Rust `HashMap::insert` on the association-list model: replace the
value at an existing key, otherwise append the new binding. -/
def insertDevice (m : List (String × AudioDevice)) (key : String) (d : AudioDevice) :
    List (String × AudioDevice) :=
  match m with
  | [] => [(key, d)]
  | (k, v) :: rest =>
      if k = key then (k, d) :: rest else (k, v) :: insertDevice rest key d

/-- Composition of `execute_powershell_with_retry` and
`parse_device_list_response` in `fetch_devices_from_powershell`
(audio_manager.rs, lines 188-192), on the abstract result of the external
call. -/
def fetchParse : ExecResult → Except AudioError (List AudioDevice)
  | .err e => .error e
  | .ok (.error msg) => .error (.ParseError msg)
  | .ok (.ok j) => parse_device_list_response j

/-- The cache-update step of `get_audio_devices` (audio_manager.rs, lines
103-112): the cache is cleared, then repopulated with one insert per
fetched device keyed by its id, and `last_refresh` is stamped with the
call's `start_time`. -/
def refreshedState (st : AudioManagerState) (start_time : Nat)
    (devices : List AudioDevice) : AudioManagerState :=
  { st with
    cached_devices := devices.foldl (fun m d => insertDevice m d.id d) []
    last_refresh := some start_time }

/-- Cache-miss tail of `get_audio_devices` (audio_manager.rs, lines
100-112): fetch from PowerShell, then clear and repopulate the cache keyed
by id and stamp `last_refresh := start_time`.  On a fetch or parse failure
the `?` propagates the error and the cache is left untouched. -/
def refreshDevices (start_time : Nat) (s : Sys) :
    Except AudioError (List AudioDevice) × Sys :=
  let (r, s) := s.execCmd .listDevices
  match fetchParse r with
  | .error e => (.error e, s)
  | .ok devices =>
      (.ok devices, s.withState (refreshedState s.state start_time devices))

/-- Rust `get_audio_devices` (audio_manager.rs, lines 85-129): take
`start_time = Instant::now()`; if `last_refresh` is set and
`start_time - last_refresh < cache_ttl`, return the cached values without
any external call; otherwise fetch and replace the cache. -/
def get_audio_devices (session_id : String) (s : Sys) :
    Except AudioError (List AudioDevice) × Sys :=
  let (start_time, s) := s.tick
  match s.state.last_refresh with
  | some last_refresh =>
      if start_time - last_refresh < s.state.cache_ttl then
        (.ok (s.state.cached_devices.map Prod.snd), s)
      else
        refreshDevices start_time s
  | none => refreshDevices start_time s

/-- Rust `get_devices` (audio_manager.rs, lines 80-82). -/
def get_devices (session_id : String) (s : Sys) :
    Except AudioError (List AudioDevice) × Sys :=
  get_audio_devices session_id s

/-- Rust `validate_device_id` (audio_manager.rs, lines 296-307). -/
def validate_device_id (session_id : String) (device_id : String) (s : Sys) :
    Except AudioError Bool × Sys :=
  match get_audio_devices session_id s with
  | (.error e, s) => (.error e, s)
  | (.ok devices, s) =>
      if devices.any (fun d => d.id == device_id) then (.ok true, s)
      else (.error (.DeviceNotFound device_id), s)

/-- Rust `get_current_defaults` (audio_manager.rs, lines 568-582). -/
def get_current_defaults (session_id : String) (s : Sys) :
    Except AudioError (Option String × Option String) × Sys :=
  match get_audio_devices session_id s with
  | (.error e, s) => (.error e, s)
  | (.ok devices, s) =>
      let default_playback :=
        (devices.find? fun d => d.device_type == DeviceType.Playback && d.is_default).map
          (fun d => d.id)
      let default_recording :=
        (devices.find? fun d => d.device_type == DeviceType.Recording && d.is_default).map
          (fun d => d.id)
      (.ok (default_playback, default_recording), s)

/-- Rust `change_default_device` (audio_manager.rs, lines 522-565): one
external set-default invocation whose stdout is discarded (`.await?;
Ok(())`), so the call succeeds exactly when the retry harness returned
`Ok`. -/
def change_default_device (device_id : String) (s : Sys) :
    Except AudioError Unit × Sys :=
  let (r, s) := s.execCmd (.setDefault device_id)
  match r with
  | .err e => (.error e, s)
  | .ok _ => (.ok (), s)

/-- Rust `fallback_to_previous_device` (audio_manager.rs, lines 585-612):
best-effort restore of the snapshot's playback id then recording id; each
inner result is matched and logged, never propagated, and the function
always returns `Ok(())`. -/
def fallback_to_previous_device (defaults : Option String × Option String) (s : Sys) :
    Except AudioError Unit × Sys :=
  let s :=
    match defaults.1 with
    | some playback_id => (change_default_device playback_id s).2
    | none => s
  let s :=
    match defaults.2 with
    | some recording_id => (change_default_device recording_id s).2
    | none => s
  (.ok (), s)

/-- State after `invalidate_cache`: no refresh stamp, empty catalog. -/
def invalidatedState (st : AudioManagerState) : AudioManagerState :=
  { st with last_refresh := none, cached_devices := [] }

/-- Rust `invalidate_cache` (audio_manager.rs, lines 615-620). -/
def invalidate_cache (s : Sys) : Sys :=
  s.withState (invalidatedState s.state)

/-- Rust `set_default_audio_device` (audio_manager.rs, lines 204-245):
validate the id, snapshot the current defaults, run the switch; on success
invalidate the cache, on failure run the fallback (whose `?` is modelled
faithfully, though the fallback never returns an error) and return the
original switch error. -/
def set_default_audio_device (session_id : String) (device_id : String) (s : Sys) :
    Except AudioError Unit × Sys :=
  match validate_device_id session_id device_id s with
  | (.error e, s) => (.error e, s)
  | (.ok _, s) =>
      match get_current_defaults session_id s with
      | (.error e, s) => (.error e, s)
      | (.ok current_defaults, s) =>
          match change_default_device device_id s with
          | (.ok _, s) => (.ok (), invalidate_cache s)
          | (.error e, s) =>
              match fallback_to_previous_device current_defaults s with
              | (.error fe, s) => (.error fe, s)
              | (.ok _, s) => (.error e, s)

/-- Rust `set_default_device` (audio_manager.rs, lines 195-201): the
`_device_type` argument is unused and the call forwards to
`set_default_audio_device`. -/
def set_default_device (session_id : String) (device_id : String)
    (device_type : DeviceType) (s : Sys) : Except AudioError Unit × Sys :=
  set_default_audio_device session_id device_id s

/-- Rust `change_audio_output` (audio_manager.rs, lines 248-277). -/
def change_audio_output (session_id : String) (from_device_id : String)
    (to_device_id : String) (s : Sys) : Except AudioError Unit × Sys :=
  match validate_device_id session_id from_device_id s with
  | (.error e, s) => (.error e, s)
  | (.ok _, s) =>
      match validate_device_id session_id to_device_id s with
      | (.error e, s) => (.error e, s)
      | (.ok _, s) =>
          match get_audio_devices session_id s with
          | (.error e, s) => (.error e, s)
          | (.ok devices, s) =>
              match devices.find? (fun d => d.id == from_device_id) with
              | none => (.error (.DeviceNotFound from_device_id), s)
              | some from_device =>
                  if !from_device.is_default then
                    (.error (.CommandFailed
                      ("Device " ++ from_device_id ++ " is not currently the default")), s)
                  else
                    set_default_audio_device session_id to_device_id s

/-- Whether `pat` occurs as a contiguous sublist of `haystack`. -/
def charsContain (haystack pat : List Char) : Bool :=
  match haystack with
  | [] => pat.isEmpty
  | _ :: rest => pat.isPrefixOf haystack || charsContain rest pat

/-- Rust `str::contains` on strings, as used by `quick_switch_to_device`. -/
def stringContains (s pat : String) : Bool :=
  charsContain s.toList pat.toList

/-- Rust `quick_switch_to_device` (audio_manager.rs, lines 280-293). -/
def quick_switch_to_device (session_id : String) (device_name : String) (s : Sys) :
    Except AudioError Unit × Sys :=
  match get_audio_devices session_id s with
  | (.error e, s) => (.error e, s)
  | (.ok devices, s) =>
      match devices.find?
          (fun d => stringContains d.name.toLower device_name.toLower) with
      | none => (.error (.DeviceNotFound device_name), s)
      | some target_device =>
          set_default_audio_device session_id target_device.id s

/-- Rust `check_module_availability` (audio_manager.rs, lines 310-353):
one external call, serde parse (`?` turns a serde failure into
`ParseError`), then `response["available"].as_bool().unwrap_or(false)`. -/
def check_module_availability (session_id : String) (s : Sys) :
    Except AudioError Bool × Sys :=
  let (r, s) := s.execCmd .checkModule
  match r with
  | .err e => (.error e, s)
  | .ok (.error msg) => (.error (.ParseError msg), s)
  | .ok (.ok response) =>
      (.ok ((jsonAsBool (jsonIndex response "available")).getD false), s)

/-- Rust `install_module` (audio_manager.rs, lines 356-410): one external
call, serde parse, then success iff `response["success"]` is `true`,
otherwise `CommandFailed` with `response["error"]` or a default message. -/
def install_module (session_id : String) (s : Sys) :
    Except AudioError Unit × Sys :=
  let (r, s) := s.execCmd .installModule
  match r with
  | .err e => (.error e, s)
  | .ok (.error msg) => (.error (.ParseError msg), s)
  | .ok (.ok response) =>
      if (jsonAsBool (jsonIndex response "success")).getD false then
        (.ok (), s)
      else
        (.error (.CommandFailed
          ((jsonAsStr (jsonIndex response "error")).getD "Unknown installation error")), s)

/-! ## Claim-side definitions

The claim about the per-element parsing policy is settled as a refinement:
`claimedDeviceOfElement` below is written from the claim's words (which
fields are read, how `state` maps, what defaults apply, which elements are
skipped) and proved equal to the source-translated `parseDeviceElement`. -/

/-- String field of a device element as the claim describes it: the
field's string value, or absent. -/
def claimedField (j : Json) (key : String) : Option String :=
  jsonAsStr (jsonIndex j key)

/-- Boolean flag of a device element as the claim describes it: defaults
to `false` when absent. -/
def claimedFlag (j : Json) (key : String) : Bool :=
  (jsonAsBool (jsonIndex j key)).getD false

/-- The claim's state table: `state` maps from the exact strings
`Active`, `Disabled`, `NotPresent`, `Unplugged`, and anything else
(including absent) maps to `Unknown`. -/
def claimedState (v : Option String) : DeviceState :=
  if v = some "Active" then .Active
  else if v = some "Disabled" then .Disabled
  else if v = some "NotPresent" then .NotPresent
  else if v = some "Unplugged" then .Unplugged
  else .Unknown

/-- One device per element whose `device_type` string is exactly
`"Playback"` or `"Recording"`; all other elements are skipped.  Fields are
taken as the claim words them: `id`/`name` default to the empty string,
flags default to `false`, `last_seen` stays optional. -/
def claimedDeviceOfElement (j : Json) : Option AudioDevice :=
  let ty := claimedField j "device_type"
  if ty = some "Playback" ∨ ty = some "Recording" then
    some
      { id := (claimedField j "id").getD ""
        name := (claimedField j "name").getD ""
        device_type := if ty = some "Playback" then .Playback else .Recording
        state := claimedState (claimedField j "state")
        is_default := claimedFlag j "is_default"
        is_communication_default := claimedFlag j "is_communication_default"
        last_seen := claimedField j "last_seen" }
  else none

/-! ## Concrete fixtures for the closed instance theorems -/

/-- A playback device that is the current default. -/
def deviceA : AudioDevice :=
  { id := "A", name := "Speakers", device_type := .Playback, state := .Active,
    is_default := true, is_communication_default := false, last_seen := none }

/-- A playback device that is not the default. -/
def deviceB : AudioDevice :=
  { id := "B", name := "Headset", device_type := .Playback, state := .Active,
    is_default := false, is_communication_default := false, last_seen := none }

/-- A recording device. -/
def deviceC : AudioDevice :=
  { id := "C", name := "Mic", device_type := .Recording, state := .Disabled,
    is_default := false, is_communication_default := true, last_seen := some "t" }

/-- JSON element describing `deviceA`. -/
def elemA : Json := Json.obj
  [("id", Json.str "A"), ("name", Json.str "Speakers"),
   ("device_type", Json.str "Playback"), ("state", Json.str "Active"),
   ("is_default", Json.bool true)]

/-- JSON element describing `deviceB`. -/
def elemB : Json := Json.obj
  [("id", Json.str "B"), ("name", Json.str "Headset"),
   ("device_type", Json.str "Playback"), ("state", Json.str "Active"),
   ("is_default", Json.bool false)]

/-- JSON element describing `deviceC`. -/
def elemC : Json := Json.obj
  [("id", Json.str "C"), ("name", Json.str "Mic"),
   ("device_type", Json.str "Recording"), ("state", Json.str "Disabled"),
   ("is_default", Json.bool false), ("is_communication_default", Json.bool true),
   ("last_seen", Json.str "t")]

/-- JSON element with an unrecognised `device_type`, which the parser
skips. -/
def elemX : Json := Json.obj [("device_type", Json.str "Midi")]

/-- External response whose stdout is a device listing holding `elemA`. -/
def listingRespA : ExecResult :=
  .ok (.ok (Json.obj [("devices", Json.arr [elemA])]))

/-- A manager whose cache was never populated (`last_refresh = None`) and
whose external tool always answers with the `elemA` listing. -/
def coldSys : Sys :=
  { state := AudioManagerState.default
    clock := fun _ => 0, clockIdx := 0
    exec := fun _ _ => listingRespA, execIdx := 0, trace := [] }

/-- A manager with a valid cache holding only `deviceA`. -/
def freshASys : Sys :=
  { state :=
      { cached_devices := [("A", deviceA)], last_refresh := some 0,
        cache_ttl := 30000, previous_default_playback := none,
        previous_default_recording := none }
    clock := fun _ => 0, clockIdx := 0
    exec := fun _ _ => listingRespA, execIdx := 0, trace := [] }

/-- A manager with a valid cache holding `deviceA` (default) and
`deviceB` (not default). -/
def twoSys : Sys :=
  { state :=
      { cached_devices := [("A", deviceA), ("B", deviceB)], last_refresh := some 0,
        cache_ttl := 30000, previous_default_playback := none,
        previous_default_recording := none }
    clock := fun _ => 0, clockIdx := 0
    exec := fun _ _ => listingRespA, execIdx := 0, trace := [] }

/-- A manager with a valid cache holding only `deviceB` (no current
default at all), whose external set-default command fails. -/
def failSwitchSys : Sys :=
  { state :=
      { cached_devices := [("B", deviceB)], last_refresh := some 0,
        cache_ttl := 30000, previous_default_playback := none,
        previous_default_recording := none }
    clock := fun _ => 0, clockIdx := 0
    exec := fun _ _ => .err (.CommandFailed "switch failed"), execIdx := 0, trace := [] }

/-- A manager with a valid cache holding only `deviceA`, whose external
set-default command succeeds. -/
def okSwitchSys : Sys :=
  { state :=
      { cached_devices := [("A", deviceA)], last_refresh := some 0,
        cache_ttl := 30000, previous_default_playback := none,
        previous_default_recording := none }
    clock := fun _ => 0, clockIdx := 0
    exec := fun _ _ => .ok (.ok (Json.obj [("success", Json.bool true)]))
    execIdx := 0, trace := [] }

/-- An attempt oracle under which every process spawn exits with status 1
and stderr `"boom"`. -/
def failOracle : Nat → CmdOutcome := fun _ => .exitFailure "boom"

/-! ## General lemmas -/

theorem Sys.afterTick_state (s : Sys) : s.afterTick.state = s.state := rfl

theorem Sys.afterTick_trace (s : Sys) : s.afterTick.trace = s.trace := rfl

theorem Sys.afterTick_exec (s : Sys) : s.afterTick.exec = s.exec := rfl

theorem Sys.afterTick_execIdx (s : Sys) : s.afterTick.execIdx = s.execIdx := rfl

theorem Sys.afterCmd_state (s : Sys) (c : Cmd) : (s.afterCmd c).state = s.state := rfl

theorem Sys.afterCmd_trace (s : Sys) (c : Cmd) :
    (s.afterCmd c).trace = s.trace ++ [c] := rfl

theorem Sys.withState_state (s : Sys) (st : AudioManagerState) :
    (s.withState st).state = st := rfl

theorem Sys.withState_trace (s : Sys) (st : AudioManagerState) :
    (s.withState st).trace = s.trace := rfl

attribute [simp] Sys.afterTick_state Sys.afterTick_trace Sys.afterTick_exec
attribute [simp] Sys.afterTick_execIdx Sys.afterCmd_state Sys.afterCmd_trace
attribute [simp] Sys.withState_state Sys.withState_trace

/-- The body of `fallback_to_previous_device` swallows the results of both
restore attempts, so the function's own result is always `Ok(())`; the `?`
on its call site can therefore never replace the original switch error. -/
theorem fallback_never_fails (defaults : Option String × Option String) (s : Sys) :
    (fallback_to_previous_device defaults s).1 = .ok () := rfl

theorem refreshDevices_trace (t : Nat) (s : Sys) :
    (refreshDevices t s).2.trace = s.trace ++ [Cmd.listDevices] := by
  cases h : fetchParse (s.exec s.execIdx .listDevices) <;>
    simp [refreshDevices, Sys.execCmd, Sys.withState, Sys.afterCmd, h]

theorem refreshDevices_ok (t : Nat) (s : Sys) (devices : List AudioDevice)
    (h : fetchParse (s.exec s.execIdx .listDevices) = .ok devices) :
    refreshDevices t s =
      (.ok devices, (s.afterCmd Cmd.listDevices).withState (refreshedState s.state t devices)) := by
  simp [refreshDevices, Sys.execCmd, Sys.withState, Sys.afterCmd, h]

theorem get_audio_devices_hit (sid : String) (s : Sys) (lr : Nat)
    (h1 : s.state.last_refresh = some lr)
    (h2 : s.clock s.clockIdx - lr < s.state.cache_ttl) :
    get_audio_devices sid s =
      (.ok (s.state.cached_devices.map Prod.snd), s.afterTick) := by
  simp [get_audio_devices, Sys.tick, h1, h2]

theorem get_audio_devices_stale (sid : String) (s : Sys) (lr : Nat)
    (h1 : s.state.last_refresh = some lr)
    (h2 : ¬ (s.clock s.clockIdx - lr < s.state.cache_ttl)) :
    get_audio_devices sid s = refreshDevices (s.clock s.clockIdx) s.afterTick := by
  simp [get_audio_devices, Sys.tick, h1, h2]

theorem get_audio_devices_cold (sid : String) (s : Sys)
    (h1 : s.state.last_refresh = none) :
    get_audio_devices sid s = refreshDevices (s.clock s.clockIdx) s.afterTick := by
  simp [get_audio_devices, Sys.tick, h1]

/-- Every external call made by a catalog read is a listing call. -/
theorem get_audio_devices_trace (sid : String) (s : Sys) :
    ∃ l, (get_audio_devices sid s).2.trace = s.trace ++ l
      ∧ ∀ c ∈ l, c = Cmd.listDevices := by
  cases h1 : s.state.last_refresh with
  | none =>
      refine ⟨[Cmd.listDevices], ?_, by simp⟩
      rw [get_audio_devices_cold sid s h1, refreshDevices_trace]
      simp
  | some lr =>
      by_cases h2 : s.clock s.clockIdx - lr < s.state.cache_ttl
      · exact ⟨[], by rw [get_audio_devices_hit sid s lr h1 h2]; simp [Sys.afterTick], by simp⟩
      · refine ⟨[Cmd.listDevices], ?_, by simp⟩
        rw [get_audio_devices_stale sid s lr h1 h2, refreshDevices_trace]
        simp

/-- Every external call made by an id validation is a listing call. -/
theorem validate_device_id_trace (sid device_id : String) (s : Sys) :
    ∃ l, (validate_device_id sid device_id s).2.trace = s.trace ++ l
      ∧ ∀ c ∈ l, c = Cmd.listDevices := by
  obtain ⟨l, hl, hall⟩ := get_audio_devices_trace sid s
  rcases hg : get_audio_devices sid s with ⟨r, s'⟩
  rw [hg] at hl
  have hl' : s'.trace = s.trace ++ l := hl
  cases r with
  | error e => exact ⟨l, by simp [validate_device_id, hg, hl'], hall⟩
  | ok devices =>
      by_cases hx : devices.any (fun d => d.id == device_id) = true <;>
        exact ⟨l, by simp [validate_device_id, hg, hx, hl'], hall⟩

/-- The source-translated per-element parser agrees with the claim-worded
one on every JSON value. -/
theorem parseDeviceElement_eq_claimed (j : Json) :
    parseDeviceElement j = claimedDeviceOfElement j := by
  unfold parseDeviceElement claimedDeviceOfElement parseDeviceElement.parseFields
  unfold claimedField claimedFlag claimedState
  rcases hty : jsonAsStr (jsonIndex j "device_type") with _ | ty
  · simp
  · simp only
    by_cases hp : ty = "Playback" <;> by_cases hr : ty = "Recording" <;>
      simp [hp, hr] <;>
      rcases hst : jsonAsStr (jsonIndex j "state") with _ | st <;>
        simp [hst] <;> split_ifs <;> simp_all [claimedState]

/-! ## Claims -/

/-- C1: when validation and the previous-defaults snapshot succeed but the
external set-default command fails with error `e`, `set_default_audio_device`
returns exactly `e` — the system then being whatever the best-effort
fallback left behind, whose own result never replaces `e` — and when both
snapshot entries are `None` the fallback issues zero further external
commands, so the whole call's only set-default command is the failed
switch itself. -/
theorem switch_failure_returns_original_error (sid device_id : String)
    (s s₁ s₂ : Sys) (defaults : Option String × Option String) (e : AudioError)
    (hv : validate_device_id sid device_id s = (.ok true, s₁))
    (hd : get_current_defaults sid s₁ = (.ok defaults, s₂))
    (hc : s₂.exec s₂.execIdx (Cmd.setDefault device_id) = .err e) :
    set_default_audio_device sid device_id s =
      (.error e,
       (fallback_to_previous_device defaults
          (s₂.afterCmd (Cmd.setDefault device_id))).2)
    ∧ (defaults = (none, none) →
        set_default_audio_device sid device_id s =
          (.error e, s₂.afterCmd (Cmd.setDefault device_id))) := by
  have hchg : change_default_device device_id s₂ =
      (.error e, s₂.afterCmd (Cmd.setDefault device_id)) := by
    simp [change_default_device, Sys.execCmd, hc]
  rcases hf : fallback_to_previous_device defaults
      (s₂.afterCmd (Cmd.setDefault device_id)) with ⟨r, s₄⟩
  have hr : r = .ok () := by
    have h := fallback_never_fails defaults (s₂.afterCmd (Cmd.setDefault device_id))
    rw [hf] at h
    exact h
  subst hr
  constructor
  · simp [set_default_audio_device, hv, hd, hchg, hf]
  · intro hnone
    subst hnone
    have hfid : fallback_to_previous_device ((none, none) : Option String × Option String)
        (s₂.afterCmd (Cmd.setDefault device_id)) =
        (.ok (), s₂.afterCmd (Cmd.setDefault device_id)) := rfl
    simp [set_default_audio_device, hv, hd, hchg, hfid]

/-- C1 witness: a manager whose catalog holds only the non-default device
`B` (so the snapshot is `(None, None)`) and whose external switch command
fails; the call returns the original `CommandFailed` and issues exactly
one set-default command. -/
theorem switch_failure_returns_original_error_witness :
    set_default_audio_device "session" "B" failSwitchSys =
      (.error (.CommandFailed "switch failed"),
       (failSwitchSys.afterTick.afterTick).afterCmd (Cmd.setDefault "B")) :=
  (switch_failure_returns_original_error "session" "B" failSwitchSys
    failSwitchSys.afterTick (failSwitchSys.afterTick.afterTick) (none, none)
    (.CommandFailed "switch failed") rfl rfl rfl).2 rfl

/-- C2 (amended): a switch request for an id absent from the catalog read
during validation fails with `DeviceNotFound(id)` and issues no external
set-default command (every external call of the whole invocation is a
listing call); the device cache is unchanged whenever that validation read
was served from the valid cache.  (As literally stated the claim is
refuted by `set_default_missing_id_changes_cache`: a validation read on a
stale cache refreshes the cache wholesale as part of listing.) -/
theorem set_default_unknown_id_rejected (sid device_id : String) (s s₁ : Sys)
    (devices : List AudioDevice)
    (hg : get_audio_devices sid s = (.ok devices, s₁))
    (habs : devices.any (fun d => d.id == device_id) = false) :
    set_default_audio_device sid device_id s = (.error (.DeviceNotFound device_id), s₁)
    ∧ (∃ l, s₁.trace = s.trace ++ l ∧ ∀ c ∈ l, c = Cmd.listDevices)
    ∧ (∀ lr, s.state.last_refresh = some lr →
        s.clock s.clockIdx - lr < s.state.cache_ttl → s₁.state = s.state) := by
  have hval : validate_device_id sid device_id s =
      (.error (.DeviceNotFound device_id), s₁) := by
    simp [validate_device_id, hg, habs]
  refine ⟨?_, ?_, ?_⟩
  · simp [set_default_audio_device, hval]
  · obtain ⟨l, hl, hall⟩ := get_audio_devices_trace sid s
    rw [hg] at hl
    exact ⟨l, hl, hall⟩
  · intro lr h1 h2
    rw [get_audio_devices_hit sid s lr h1 h2] at hg
    have hs : s₁ = s.afterTick := ((Prod.mk.injEq _ _ _ _).mp hg).2.symm
    rw [hs]
    rfl

/-- C2 witness: with a valid cache holding only device `A`, switching to
`B` fails with `DeviceNotFound("B")` and leaves the system untouched but
for the consumed clock reading. -/
theorem set_default_unknown_id_rejected_witness :
    set_default_audio_device "session" "B" freshASys =
      (.error (.DeviceNotFound "B"), freshASys.afterTick) :=
  (set_default_unknown_id_rejected "session" "B" freshASys freshASys.afterTick
    [deviceA] rfl rfl).1

/-- C2 counterexample: on a never-populated cache the validation read
fetches and replaces the catalog, so the failed switch to the unknown id
`B` returns `DeviceNotFound("B")` yet does change the device cache (from
empty to the fetched `deviceA` entry, with `last_refresh` newly set),
refuting the claim's "leaves the device cache unchanged". -/
theorem set_default_missing_id_changes_cache :
    (set_default_audio_device "session" "B" coldSys).1 = .error (.DeviceNotFound "B")
    ∧ coldSys.state.cached_devices = []
    ∧ (set_default_audio_device "session" "B" coldSys).2.state.cached_devices =
        [("A", deviceA)]
    ∧ coldSys.state.last_refresh = none
    ∧ (set_default_audio_device "session" "B" coldSys).2.state.last_refresh = some 0 :=
  ⟨rfl, rfl, rfl, rfl, rfl⟩

/-- C3: a command failing on every attempt is attempted exactly
`MAX_RETRY_ATTEMPTS = 3` times with sleeps of `500` then `1000`
milliseconds between consecutive attempts (strictly increasing, linear,
none after the final attempt) and returns the last attempt's failure as
`CommandFailed`; a successful attempt returns that attempt's stdout with
no further attempts, covering success on attempt 1, 2 or 3. -/
theorem retry_attempts_and_backoff (oracle : Nat → CmdOutcome) :
    ((oracle 1).isSuccess = false → (oracle 2).isSuccess = false →
      (oracle 3).isSuccess = false →
      execute_powershell_with_retry oracle =
        ⟨3, [500, 1000], .error ((oracle 3).toError)⟩ ∧
      ∃ detail, (oracle 3).toError = .CommandFailed detail)
    ∧ (∀ stdout, oracle 1 = .success stdout →
        execute_powershell_with_retry oracle = ⟨1, [], .ok stdout⟩)
    ∧ (∀ stdout, (oracle 1).isSuccess = false → oracle 2 = .success stdout →
        execute_powershell_with_retry oracle = ⟨2, [500], .ok stdout⟩)
    ∧ (∀ stdout, (oracle 1).isSuccess = false → (oracle 2).isSuccess = false →
        oracle 3 = .success stdout →
        execute_powershell_with_retry oracle = ⟨3, [500, 1000], .ok stdout⟩) := by
  refine ⟨?_, ?_, ?_, ?_⟩
  · intro h1 h2 h3
    rcases o1 : oracle 1 with m1 | e1 | s1 <;>
      rcases o2 : oracle 2 with m2 | e2 | s2 <;>
      rcases o3 : oracle 3 with m3 | e3 | s3 <;>
      simp_all [execute_powershell_with_retry, retryFrom, MAX_RETRY_ATTEMPTS,
        RETRY_BASE_DELAY, CmdOutcome.isSuccess, CmdOutcome.toError]
  · intro stdout h1
    simp [execute_powershell_with_retry, retryFrom, MAX_RETRY_ATTEMPTS, h1]
  · intro stdout h1 h2
    rcases o1 : oracle 1 with m1 | e1 | s1 <;>
      simp_all [execute_powershell_with_retry, retryFrom, MAX_RETRY_ATTEMPTS,
        RETRY_BASE_DELAY, CmdOutcome.isSuccess]
  · intro stdout h1 h2 h3
    rcases o1 : oracle 1 with m1 | e1 | s1 <;>
      rcases o2 : oracle 2 with m2 | e2 | s2 <;>
      simp_all [execute_powershell_with_retry, retryFrom, MAX_RETRY_ATTEMPTS,
        RETRY_BASE_DELAY, CmdOutcome.isSuccess]

/-- C3 witness: under an oracle whose every attempt exits with stderr
`"boom"`, the harness runs 3 attempts, sleeps 500 ms then 1000 ms, and
returns `CommandFailed("boom")`. -/
theorem retry_attempts_and_backoff_witness :
    execute_powershell_with_retry failOracle =
      ⟨3, [500, 1000], .error (.CommandFailed "boom")⟩
    ∧ ∃ detail, (failOracle 3).toError = .CommandFailed detail :=
  (retry_attempts_and_backoff failOracle).1 rfl rfl rfl

/-- C4: a response object carrying an `error` field parses to
`CommandFailed` with that error's message (even when a `devices` array is
also present — the `error` check runs first), and an error-free object
whose `devices` key is absent or not an array parses to
`ParseError("Missing devices array")`. -/
theorem parse_error_priority_and_missing_devices (fields : List (String × Json)) :
    (∀ v, jsonLookup "error" fields = some v →
      parse_device_list_response (.obj fields) =
        .error (.CommandFailed ((jsonAsStr v).getD "Unknown error")))
    ∧ (jsonLookup "error" fields = none →
      jsonAsArr (jsonIndex (.obj fields) "devices") = none →
      parse_device_list_response (.obj fields) =
        .error (.ParseError "Missing devices array")) := by
  constructor
  · intro v hv
    simp [parse_device_list_response, jsonGetOpt, hv]
  · intro he hd
    simp [parse_device_list_response, jsonGetOpt, he, hd]

/-- C4 witness: an object with both an `error` field and a `devices` array
parses to `CommandFailed("boom")`, and an object whose `devices` value is
a number parses to the missing-array `ParseError`. -/
theorem parse_error_priority_and_missing_devices_witness :
    parse_device_list_response
      (Json.obj [("error", Json.str "boom"), ("devices", Json.arr [])]) =
      .error (.CommandFailed "boom")
    ∧ parse_device_list_response (Json.obj [("devices", Json.num 7)]) =
      .error (.ParseError "Missing devices array") :=
  ⟨(parse_error_priority_and_missing_devices
      [("error", Json.str "boom"), ("devices", Json.arr [])]).1 (Json.str "boom") rfl,
   (parse_error_priority_and_missing_devices [("devices", Json.num 7)]).2 rfl rfl⟩

/-- C5: an error-free response whose `devices` value is an array parses
successfully to exactly the claim-worded projection of its elements, in
array order: one device per element whose `device_type` is exactly
`"Playback"` or `"Recording"` (others silently skipped), with the claimed
state table and field defaults. -/
theorem parse_devices_array_tolerant (fields : List (String × Json)) (xs : List Json) :
    jsonLookup "error" fields = none →
    jsonIndex (.obj fields) "devices" = .arr xs →
    parse_device_list_response (.obj fields) =
      .ok (xs.filterMap claimedDeviceOfElement) := by
  intro he hd
  simp [parse_device_list_response, jsonGetOpt, he, hd, jsonAsArr]
  exact List.filterMap_congr fun j _ => parseDeviceElement_eq_claimed j

/-- C5 witness: the spec's round-trip example — two playback devices (one
default), one recording device, and one element of unknown type — parses
to exactly the three corresponding records in order, skipping the unknown
element. -/
theorem parse_devices_array_tolerant_witness :
    parse_device_list_response
      (Json.obj [("devices", Json.arr [elemA, elemB, elemX, elemC])]) =
      .ok [deviceA, deviceB, deviceC] :=
  parse_devices_array_tolerant
    [("devices", Json.arr [elemA, elemB, elemX, elemC])]
    [elemA, elemB, elemX, elemC] rfl rfl

/-- C6: a read whose `last_refresh` is set and within `cache_ttl` of the
call's `now` returns the cached snapshot's devices with no external call
and no state change; a read with `last_refresh = None`, or with the TTL
elapsed, issues exactly one listing call and, on a successful fetch,
replaces the cache wholesale with the fetched devices keyed by id and
stamps `last_refresh` with the call's start time. -/
theorem cache_validity_governs_fetch (sid : String) (s : Sys) :
    (∀ lr, s.state.last_refresh = some lr →
      s.clock s.clockIdx - lr < s.state.cache_ttl →
      get_audio_devices sid s =
        (.ok (s.state.cached_devices.map Prod.snd), s.afterTick))
    ∧ (s.state.last_refresh = none →
        (get_audio_devices sid s).2.trace = s.trace ++ [Cmd.listDevices]
        ∧ ∀ devices, fetchParse (s.exec s.execIdx Cmd.listDevices) = .ok devices →
          get_audio_devices sid s =
            (.ok devices,
             (s.afterTick.afterCmd Cmd.listDevices).withState
               (refreshedState s.state (s.clock s.clockIdx) devices)))
    ∧ (∀ lr, s.state.last_refresh = some lr →
        ¬ (s.clock s.clockIdx - lr < s.state.cache_ttl) →
        (get_audio_devices sid s).2.trace = s.trace ++ [Cmd.listDevices]
        ∧ ∀ devices, fetchParse (s.exec s.execIdx Cmd.listDevices) = .ok devices →
          get_audio_devices sid s =
            (.ok devices,
             (s.afterTick.afterCmd Cmd.listDevices).withState
               (refreshedState s.state (s.clock s.clockIdx) devices))) := by
  refine ⟨fun lr h1 h2 => get_audio_devices_hit sid s lr h1 h2, ?_, ?_⟩
  · intro h1
    constructor
    · rw [get_audio_devices_cold sid s h1, refreshDevices_trace]
      simp
    · intro devices hfp
      rw [get_audio_devices_cold sid s h1]
      exact refreshDevices_ok (s.clock s.clockIdx) s.afterTick devices hfp
  · intro lr h1 h2
    constructor
    · rw [get_audio_devices_stale sid s lr h1 h2, refreshDevices_trace]
      simp
    · intro devices hfp
      rw [get_audio_devices_stale sid s lr h1 h2]
      exact refreshDevices_ok (s.clock s.clockIdx) s.afterTick devices hfp

/-- C6 witness: a valid-cache read returns the cached device with no
external call, and a never-refreshed read fetches once and repopulates the
cache from the fetched listing. -/
theorem cache_validity_governs_fetch_witness :
    get_audio_devices "session" freshASys = (.ok [deviceA], freshASys.afterTick)
    ∧ get_audio_devices "session" coldSys =
        (.ok [deviceA],
         (coldSys.afterTick.afterCmd Cmd.listDevices).withState
           (refreshedState coldSys.state 0 [deviceA])) :=
  ⟨(cache_validity_governs_fetch "session" freshASys).1 0 rfl (by decide),
   ((cache_validity_governs_fetch "session" coldSys).2.1 rfl).2 [deviceA] rfl⟩

/-- C7: a switch whose external set-default command succeeds returns `Ok`
and leaves the cache invalidated — `cached_devices` empty and
`last_refresh = None` — with no special case for a device that is already
the default: the hypotheses only require the id to pass validation, so
they cover the already-default device as any other. -/
theorem successful_switch_invalidates_cache (sid device_id : String)
    (s s₁ s₂ : Sys) (defaults : Option String × Option String)
    (stdout : Except String Json)
    (hv : validate_device_id sid device_id s = (.ok true, s₁))
    (hd : get_current_defaults sid s₁ = (.ok defaults, s₂))
    (hc : s₂.exec s₂.execIdx (Cmd.setDefault device_id) = .ok stdout) :
    set_default_audio_device sid device_id s =
      (.ok (), invalidate_cache (s₂.afterCmd (Cmd.setDefault device_id)))
    ∧ (set_default_audio_device sid device_id s).2.state.cached_devices = []
    ∧ (set_default_audio_device sid device_id s).2.state.last_refresh = none := by
  have hchg : change_default_device device_id s₂ =
      (.ok (), s₂.afterCmd (Cmd.setDefault device_id)) := by
    simp [change_default_device, Sys.execCmd, hc]
  have hmain : set_default_audio_device sid device_id s =
      (.ok (), invalidate_cache (s₂.afterCmd (Cmd.setDefault device_id))) := by
    simp [set_default_audio_device, hv, hd, hchg]
  refine ⟨hmain, ?_, ?_⟩ <;>
    simp [hmain, invalidate_cache, invalidatedState, Sys.withState]

/-- C7 witness: switching to device `A`, which is already the current
default, with a succeeding external command: the call returns `Ok` and the
cache ends empty with `last_refresh = None`. -/
theorem successful_switch_invalidates_cache_witness :
    set_default_audio_device "session" "A" okSwitchSys =
      (.ok (),
       invalidate_cache ((okSwitchSys.afterTick.afterTick).afterCmd (Cmd.setDefault "A")))
    ∧ (set_default_audio_device "session" "A" okSwitchSys).2.state.cached_devices = []
    ∧ (set_default_audio_device "session" "A" okSwitchSys).2.state.last_refresh = none :=
  successful_switch_invalidates_cache "session" "A" okSwitchSys
    okSwitchSys.afterTick (okSwitchSys.afterTick.afterTick) (some "A", none)
    (Except.ok (Json.obj [("success", Json.bool true)])) rfl rfl rfl

/-- C8: when both ids pass validation and the follow-up catalog read finds
`from_device`, a non-default `from_device` makes the call fail with
`CommandFailed("Device <id> is not currently the default")` after only
listing calls (no external set-default command), while a default
`from_device` makes the call equal to the switch primitive applied to
`to_device_id`. -/
theorem change_output_requires_current_default (sid from_device_id to_device_id : String)
    (s s₁ s₂ s₃ : Sys) (devices : List AudioDevice) (from_device : AudioDevice)
    (h1 : validate_device_id sid from_device_id s = (.ok true, s₁))
    (h2 : validate_device_id sid to_device_id s₁ = (.ok true, s₂))
    (h3 : get_audio_devices sid s₂ = (.ok devices, s₃))
    (h4 : devices.find? (fun d => d.id == from_device_id) = some from_device) :
    (from_device.is_default = false →
      change_audio_output sid from_device_id to_device_id s =
        (.error (.CommandFailed
          ("Device " ++ from_device_id ++ " is not currently the default")), s₃)
      ∧ ∃ l, s₃.trace = s.trace ++ l ∧ ∀ c ∈ l, c = Cmd.listDevices)
    ∧ (from_device.is_default = true →
        change_audio_output sid from_device_id to_device_id s =
          set_default_audio_device sid to_device_id s₃) := by
  constructor
  · intro hdef
    constructor
    · simp [change_audio_output, h1, h2, h3, h4, hdef]
    · obtain ⟨l₁, hl₁, hall₁⟩ := validate_device_id_trace sid from_device_id s
      obtain ⟨l₂, hl₂, hall₂⟩ := validate_device_id_trace sid to_device_id s₁
      obtain ⟨l₃, hl₃, hall₃⟩ := get_audio_devices_trace sid s₂
      rw [h1] at hl₁
      rw [h2] at hl₂
      rw [h3] at hl₃
      have hl₁' : s₁.trace = s.trace ++ l₁ := hl₁
      have hl₂' : s₂.trace = s₁.trace ++ l₂ := hl₂
      have hl₃' : s₃.trace = s₂.trace ++ l₃ := hl₃
      refine ⟨l₁ ++ l₂ ++ l₃, ?_, ?_⟩
      · rw [hl₃', hl₂', hl₁']
        simp [List.append_assoc]
      · intro c hc
        rcases List.mem_append.mp hc with hc' | hc'
        · rcases List.mem_append.mp hc' with hc'' | hc''
          · exact hall₁ c hc''
          · exact hall₂ c hc''
        · exact hall₃ c hc'
  · intro hdef
    simp [change_audio_output, h1, h2, h3, h4, hdef]

/-- C8 witness: with a valid cache holding default `A` and non-default
`B`, `change_audio_output("B", "A")` fails with the not-currently-default
`CommandFailed` having issued no external command at all. -/
theorem change_output_requires_current_default_witness :
    change_audio_output "session" "B" "A" twoSys =
      (.error (.CommandFailed "Device B is not currently the default"),
       twoSys.afterTick.afterTick.afterTick) :=
  ((change_output_requires_current_default "session" "B" "A" twoSys
      twoSys.afterTick (twoSys.afterTick.afterTick)
      (twoSys.afterTick.afterTick.afterTick)
      [deviceA, deviceB] deviceB rfl rfl rfl rfl).1 rfl).1

/-- C9: the session identifier is log-correlation only — for any two
session ids, every operation of the manager returns the same result and
the same final system (cache state, clock, external stream, trace) on the
same inputs. -/
theorem session_id_has_no_effect (sid₁ sid₂ device_id from_id to_id name : String)
    (s : Sys) :
    get_audio_devices sid₁ s = get_audio_devices sid₂ s
    ∧ set_default_audio_device sid₁ device_id s = set_default_audio_device sid₂ device_id s
    ∧ change_audio_output sid₁ from_id to_id s = change_audio_output sid₂ from_id to_id s
    ∧ quick_switch_to_device sid₁ name s = quick_switch_to_device sid₂ name s
    ∧ validate_device_id sid₁ device_id s = validate_device_id sid₂ device_id s
    ∧ check_module_availability sid₁ s = check_module_availability sid₂ s
    ∧ install_module sid₁ s = install_module sid₂ s :=
  ⟨rfl, rfl, rfl, rfl, rfl, rfl, rfl⟩

/-- C10: the public `set_default_device` ignores its `device_type`
argument entirely — for both `Playback` and `Recording` it is the very
same computation as `set_default_audio_device`, hence equal results,
commands and cache state. -/
theorem set_default_device_ignores_device_type (sid device_id : String)
    (device_type : DeviceType) (s : Sys) :
    set_default_device sid device_id device_type s =
      set_default_audio_device sid device_id s :=
  rfl
